import Mathlib

/-! # SensMonitor: snapshot decoder, threshold store, telemetry mirror, connection registry

A shallow embedding of `NodeMCU/main/esp32_uart_manager.cpp`, `ble/bme280_service.c`
and `ble/ble_manager.c`.  Module-level C variables become fields of explicit state
records, every C function becomes a function from state (and inputs) to state (and
observable effects).  Machine integers are `Nat`/`Int` with explicit wrap-around.
-/

namespace SensMonitor

/-! ## Machine integers -/

/-- Value of a bit pattern converted to `int16_t` (modular, two's complement). -/
def toInt16 (n : Nat) : Int :=
  if n % 65536 < 32768 then ((n % 65536 : Nat) : Int) else ((n % 65536 : Nat) : Int) - 65536

/-- Value of a bit pattern converted to `int32_t` (modular, two's complement). -/
def toInt32 (n : Nat) : Int :=
  if n % 4294967296 < 2147483648 then ((n % 4294967296 : Nat) : Int)
  else ((n % 4294967296 : Nat) : Int) - 4294967296

/-! ## Gateway side: `esp32_uart_manager.cpp` -/

/-- The macro `#define CMD_SNAPSHOT 0x01`. -/
def CMD_SNAPSHOT : Nat := 0x01

/-- The macro `#define SEND_INTERVAL_MS 30000`. -/
def SEND_INTERVAL_MS : Nat := 30000

/-- The value of `sizeof(rx_buf)` for `static uint8_t rx_buf[33]`. -/
def RX_BUF_SIZE : Nat := 33

/-- Number of values of `unsigned long` on the ESP32 (32 bits): `millis()` and
`last_send` live modulo this. -/
def ULONG_MOD : Nat := 4294967296

/-- The helper `bytes_to_int16`: `(int16_t)((hi << 8) | lo)`.  The operands are promoted to
`int`, so the shift and the or are exact; only the final cast wraps. -/
def bytes_to_int16 (hi lo : Nat) : Int :=
  toInt16 ((hi <<< 8) ||| lo)

/-- The locals computed by the parse block of `uart_manager_update` (lines 89-99),
under the names they have in the source.  In the words of the specification:
`dht_temp` is dht_temperature, `dht_hum` is dht_humidity, `bme_temp` is
ambient_temperature, `bme_hum` is ambient_humidity, `bme_pres` is ambient_pressure. -/
structure SensorSnapshot where
  dht_temp : Int
  dht_hum : Int
  bme_temp : Int
  bme_hum : Int
  bme_pres : Int
  t_min : Int
  t_max : Int
  h_min : Int
  h_max : Int
deriving DecidableEq, Repr

/-- The module-level state of the UART manager: `last_send` and the `static`
receive buffer, which keeps its content from one call to the next.  The buffer is
an array indexed by position; the code only touches positions below 33. -/
structure UartManager where
  last_send : Nat
  rx_buf : Nat → Nat

/-- Zero-initialised statics. -/
def UartManager.boot : UartManager :=
  { last_send := 0, rx_buf := fun _ => 0 }

/-- The drain loop
`while (nrfSerial.available() && idx < sizeof(rx_buf)) rx_buf[idx++] = nrfSerial.read();`
run over the bytes the serial port has available.  Returns the buffer, the final
`idx` and the bytes left unread.  A byte is stored through `uint8_t`. -/
def read_loop (rx_buf : Nat → Nat) (idx : Nat) : List Nat → (Nat → Nat) × Nat × List Nat
  | [] => (rx_buf, idx, [])
  | b :: rest =>
    if idx < RX_BUF_SIZE then
      read_loop (fun j => if j = idx then b % 256 else rx_buf j) (idx + 1) rest
    else
      (rx_buf, idx, b :: rest)

/-- The receive half of `uart_manager_update` after the drain loop (lines 83-108):
nothing is parsed unless `idx > 0`, the first byte is `CMD_SNAPSHOT` and `idx >= 19`.
The pressure is assembled on the 32-bit pattern, `(int32_t)rx_buf[9] << 24` and so
on, and read as `int32_t` (two's complement, as the target's compiler does). -/
def parse_response (rx_buf : Nat → Nat) (idx : Nat) : Option SensorSnapshot :=
  if idx > 0 then
    if rx_buf 0 = CMD_SNAPSHOT ∧ idx ≥ 19 then
      some
        { dht_temp := bytes_to_int16 (rx_buf 1) (rx_buf 2)
          dht_hum := bytes_to_int16 (rx_buf 3) (rx_buf 4)
          bme_temp := bytes_to_int16 (rx_buf 5) (rx_buf 6)
          bme_hum := bytes_to_int16 (rx_buf 7) (rx_buf 8)
          bme_pres :=
            toInt32 ((((rx_buf 9 <<< 24) ||| (rx_buf 10 <<< 16)) ||| (rx_buf 11 <<< 8))
              ||| rx_buf 12)
          t_min := bytes_to_int16 (rx_buf 11) (rx_buf 12)
          t_max := bytes_to_int16 (rx_buf 13) (rx_buf 14)
          h_min := bytes_to_int16 (rx_buf 15) (rx_buf 16)
          h_max := bytes_to_int16 (rx_buf 17) (rx_buf 18) }
    else none
  else none

/-- Everything one call of `uart_manager_update` does that can be observed. -/
structure UartOutcome where
  /-- The statics after the call. -/
  state : UartManager
  /-- The bytes handed to `nrfSerial.write` during the call. -/
  written : List Nat
  /-- The bytes still waiting in the serial port. -/
  pending : List Nat
  /-- The number of bytes drained into `rx_buf`. -/
  idx : Nat
  /-- The decoded fields, when the parse block ran. -/
  snapshot : Option SensorSnapshot

/-- The function `uart_manager_update`, with `now` the value returned by `millis()` and `avail`
the bytes available on `nrfSerial`.  The subtraction `now - last_send` is unsigned. -/
def uart_manager_update (st : UartManager) (now : Nat) (avail : List Nat) : UartOutcome :=
  let due : Bool :=
    decide ((now % ULONG_MOD + (ULONG_MOD - st.last_send % ULONG_MOD)) % ULONG_MOD
      ≥ SEND_INTERVAL_MS)
  let last_send := if due then now % ULONG_MOD else st.last_send
  let written := if due then [CMD_SNAPSHOT, 0x0A] else []
  let r := read_loop st.rx_buf 0 avail
  { state := { last_send := last_send, rx_buf := r.1 }
    written := written
    pending := r.2.2
    idx := r.2.1
    snapshot := parse_response r.1 r.2.1 }

/-! ### The documented wire format, after the specification's offset table -/

/-- Two's-complement reading of an unsigned `w`-bit number. -/
def twos_complement (w : Nat) (u : Nat) : Int :=
  if u < 2 ^ (w - 1) then (u : Int) else (u : Int) - (2 ^ w : Nat)

/-- Big-endian 16-bit signed field of the specification: high byte first. -/
def spec_int16 (hi lo : Nat) : Int :=
  twos_complement 16 (hi * 256 + lo)

/-- Big-endian 32-bit signed field of the specification: most significant byte first. -/
def spec_int32 (b3 b2 b1 b0 : Nat) : Int :=
  twos_complement 32 (b3 * 16777216 + b2 * 65536 + b1 * 256 + b0)

/-- The offset table of the specification applied to a byte sequence: bytes 1-2,
3-4, 5-6, 7-8 are the four 16-bit readings, bytes 9-12 the pressure, bytes 11-12,
13-14, 15-16, 17-18 the threshold echo. -/
def spec_decode (bs : List Nat) : SensorSnapshot :=
  { dht_temp := spec_int16 (bs.getD 1 0) (bs.getD 2 0)
    dht_hum := spec_int16 (bs.getD 3 0) (bs.getD 4 0)
    bme_temp := spec_int16 (bs.getD 5 0) (bs.getD 6 0)
    bme_hum := spec_int16 (bs.getD 7 0) (bs.getD 8 0)
    bme_pres := spec_int32 (bs.getD 9 0) (bs.getD 10 0) (bs.getD 11 0) (bs.getD 12 0)
    t_min := spec_int16 (bs.getD 11 0) (bs.getD 12 0)
    t_max := spec_int16 (bs.getD 13 0) (bs.getD 14 0)
    h_min := spec_int16 (bs.getD 15 0) (bs.getD 16 0)
    h_max := spec_int16 (bs.getD 17 0) (bs.getD 18 0) }

/-- The response of the specification's decoding scenario. -/
def scenario_response : List Nat :=
  [0x01, 0x09, 0x29, 0x12, 0xC8, 0x0A, 0xC8, 0x1B, 0x58, 0x00, 0x00, 0x27, 0x10,
   0x05, 0xDC, 0x0F, 0xA0, 0x1B, 0x58]

/-! ## Sensor side: `ble/bme280_service.c` and `ble/ble_manager.c` -/

/-- A connection object of the Bluetooth stack, that is a non-null
`struct bt_conn *`.  A pointer variable is an `Option Conn`, `NULL` being `none`. -/
abbrev Conn := Nat

/-- Modelled from the spec: the invalid-offset error of an attribute write.  The
constant `BT_ATT_ERR_INVALID_OFFSET` comes from the Zephyr headers, which are not
among the sources; its value there is 0x07. -/
def BT_ATT_ERR_INVALID_OFFSET : Nat := 0x07

/-- Modelled from the spec: the Zephyr header's `BT_GATT_ERR(x)`, the negated
attribute error, which is how a callback reports a failure through `ssize_t`. -/
def BT_GATT_ERR (att_err : Nat) : Int := -(att_err : Int)

/-- Modelled from the spec: the subscription-descriptor value that asks for
notifications, `BT_GATT_CCC_NOTIFY` of the Zephyr headers (0x0001). -/
def BT_GATT_CCC_NOTIFY : Nat := 0x0001

/-- The array `static uint16_t thresholds[4]`: entries 0, 1, 2, 3 in the order of the source's
comment, temp_min, temp_max, hum_min, hum_max.  Each entry is an unsigned 16-bit
number. -/
structure Thresholds where
  t_min : Nat
  t_max : Nat
  h_min : Nat
  h_max : Nat
deriving DecidableEq, Repr

/-- The initialiser `{1500, 3000, 4000, 7000}`. -/
def Thresholds.initial : Thresholds :=
  { t_min := 1500, t_max := 3000, h_min := 4000, h_max := 7000 }

/-- The value of `sizeof(thresholds)`: four `uint16_t`. -/
def SIZEOF_THRESHOLDS : Nat := 8

/-- The `uint16_t` stored in two consecutive bytes of memory; the nRF52 is
little-endian, the byte at the lower address is the low byte. -/
def load_le16 (b0 b1 : Nat) : Nat :=
  b0 % 256 + 256 * (b1 % 256)

/-- The two bytes a `uint16_t` occupies in memory, lower address first. -/
def store_le16 (v : Nat) : List Nat :=
  [v % 256, v / 256 % 256]

/-- The array `thresholds` after `memcpy(thresholds, buf, sizeof(thresholds))`. -/
def thresholds_of_bytes (buf : List Nat) : Thresholds :=
  { t_min := load_le16 (buf.getD 0 0) (buf.getD 1 0)
    t_max := load_le16 (buf.getD 2 0) (buf.getD 3 0)
    h_min := load_le16 (buf.getD 4 0) (buf.getD 5 0)
    h_max := load_le16 (buf.getD 6 0) (buf.getD 7 0) }

/-- The eight bytes the array `thresholds` occupies in memory. -/
def thresholds_bytes (t : Thresholds) : List Nat :=
  store_le16 t.t_min ++ store_le16 t.t_max ++ store_le16 t.h_min ++ store_le16 t.h_max

/-- Modelled from the spec: the stack's `bt_gatt_attr_read`, not among the sources.
A read may ask for a sub-range starting at `offset` and receives up to `buf_len`
bytes of the value from that point; an offset past the end of the value is an
invalid-offset error.  Returns the `ssize_t` result and the bytes copied out. -/
def bt_gatt_attr_read (buf_len offset : Nat) (value : List Nat) : Int × List Nat :=
  if offset > value.length then (BT_GATT_ERR BT_ATT_ERR_INVALID_OFFSET, [])
  else
    let len := min buf_len (value.length - offset)
    ((len : Int), (value.drop offset).take len)

/-- The statics of `bme280_service.c`.  `temperature` and `humidity` are `int16_t`. -/
structure Bme280Service where
  temperature : Int
  humidity : Int
  thresholds : Thresholds
  temp_notify_enabled : Bool
  hum_notify_enabled : Bool
  current_conn : Option Conn

/-- The statics of `ble_manager.c` that hold a connection. -/
structure BleManager where
  default_conn : Option Conn
  current_conn : Option Conn

/-- The whole sensor-side state: the statics of both modules, the reference count
of every connection object (owned by the stack, changed only through
`bt_conn_ref` and `bt_conn_unref`) and the level of the indicator LED. -/
structure System where
  mgr : BleManager
  svc : Bme280Service
  refs : Conn → Int
  led : Bool

/-- The statics as the C initialisers leave them, with no reference taken yet. -/
def System.boot : System :=
  { mgr := { default_conn := none, current_conn := none }
    svc :=
      { temperature := 0, humidity := 0, thresholds := Thresholds.initial,
        temp_notify_enabled := false, hum_notify_enabled := false, current_conn := none }
    refs := fun _ => 0
    led := false }

/-- Modelled from the spec: the stack's `bt_conn_ref`, not among the sources:
acquiring a handle increments its reference; the handle itself is returned. -/
def bt_conn_ref (refs : Conn → Int) (conn : Conn) : (Conn → Int) × Option Conn :=
  (fun h => if h = conn then refs h + 1 else refs h, some conn)

/-- Modelled from the spec: the stack's `bt_conn_unref`, not among the sources:
releasing a handle decrements its reference. -/
def bt_conn_unref (refs : Conn → Int) (conn : Conn) : Conn → Int :=
  fun h => if h = conn then refs h - 1 else refs h

/-- One call of the stack's `bt_gatt_notify`: the connection addressed, the index in
`bme280_svc.attrs` of the attribute announced, and the value sent. -/
structure NotifyCall where
  conn : Conn
  attr : Nat
  value : Int
deriving DecidableEq, Repr

/-- The log lines of the two update helpers. -/
inductive LogLine where
  | temperature_notified (value : Int)
  | temperature_failed (err : Int)
  | humidity_notified (value : Int)
  | humidity_failed (err : Int)
deriving DecidableEq, Repr

/-- What one call into the sensor side does: the state it leaves, the calls of
`bt_gatt_notify` it made, in order, and the lines it logged about them. -/
structure Outcome where
  state : System
  notified : List NotifyCall
  log : List LogLine

/-- The callback `read_thresholds_cb`: a read of the memory image of `thresholds` through
`bt_gatt_attr_read`. -/
def read_thresholds_cb (s : System) (len offset : Nat) : Int × List Nat :=
  bt_gatt_attr_read len offset (thresholds_bytes s.svc.thresholds)

/-- The callback `write_thresholds_cb`; `buf` holds the `len` bytes of the payload.  Returns the
state and the `ssize_t` result. -/
def write_thresholds_cb (s : System) (buf : List Nat) (offset : Nat) : System × Int :=
  let len := buf.length
  if offset ≠ 0 ∨ len ≠ SIZEOF_THRESHOLDS then
    (s, BT_GATT_ERR BT_ATT_ERR_INVALID_OFFSET)
  else
    ({ s with svc := { s.svc with thresholds := thresholds_of_bytes buf } }, (len : Int))

/-- The callback `temp_ccc_cfg_changed`: the flag is set exactly when the value
written to the descriptor is `BT_GATT_CCC_NOTIFY`. -/
def temp_ccc_cfg_changed (s : System) (value : Nat) : System :=
  { s with svc := { s.svc with temp_notify_enabled := decide (value = BT_GATT_CCC_NOTIFY) } }

/-- The callback `hum_ccc_cfg_changed`, the same for the humidity flag. -/
def hum_ccc_cfg_changed (s : System) (value : Nat) : System :=
  { s with svc := { s.svc with hum_notify_enabled := decide (value = BT_GATT_CCC_NOTIFY) } }

/-- The function `bme280_update_temperature`.  `new_temperature` is the `int16_t` argument and
`err` is what `bt_gatt_notify` returns if the function calls it.  The thresholds
are compared after the cast `(int16_t)thresholds[i]`. -/
def bme280_update_temperature (s : System) (new_temperature : Int) (err : Int) : Outcome :=
  let s1 : System := { s with svc := { s.svc with temperature := new_temperature } }
  match s1.svc.current_conn with
  | some conn =>
    if s1.svc.temp_notify_enabled = true ∧
        (s1.svc.temperature < toInt16 s1.svc.thresholds.t_min ∨
          s1.svc.temperature > toInt16 s1.svc.thresholds.t_max) then
      { state := s1
        notified := [{ conn := conn, attr := 2, value := s1.svc.temperature }]
        log :=
          if err = 0 then [LogLine.temperature_notified s1.svc.temperature]
          else [LogLine.temperature_failed err] }
    else { state := s1, notified := [], log := [] }
  | none => { state := s1, notified := [], log := [] }

/-- The function `bme280_update_humidity`, the same shape on `humidity`, `hum_notify_enabled`,
`thresholds[2]`, `thresholds[3]` and attribute 6. -/
def bme280_update_humidity (s : System) (new_humidity : Int) (err : Int) : Outcome :=
  let s1 : System := { s with svc := { s.svc with humidity := new_humidity } }
  match s1.svc.current_conn with
  | some conn =>
    if s1.svc.hum_notify_enabled = true ∧
        (s1.svc.humidity < toInt16 s1.svc.thresholds.h_min ∨
          s1.svc.humidity > toInt16 s1.svc.thresholds.h_max) then
      { state := s1
        notified := [{ conn := conn, attr := 6, value := s1.svc.humidity }]
        log :=
          if err = 0 then [LogLine.humidity_notified s1.svc.humidity]
          else [LogLine.humidity_failed err] }
    else { state := s1, notified := [], log := [] }
  | none => { state := s1, notified := [], log := [] }

/-- The function `bme280_service_set_conn`: unref and clear the held handle if there is one, then
ref and store the new one if it is not `NULL`. -/
def bme280_service_set_conn (s : System) (conn : Option Conn) : System :=
  let s1 : System :=
    match s.svc.current_conn with
    | some old =>
      { s with refs := bt_conn_unref s.refs old, svc := { s.svc with current_conn := none } }
    | none => s
  match conn with
  | some c =>
    let r := bt_conn_ref s1.refs c
    { s1 with refs := r.1, svc := { s1.svc with current_conn := r.2 } }
  | none => s1

/-- The function `ble_manager_set_connection`: the same on the manager's own `current_conn`, then
the handle is passed on to `bme280_service_set_conn`. -/
def ble_manager_set_connection (s : System) (conn : Option Conn) : System :=
  let s1 : System :=
    match s.mgr.current_conn with
    | some old =>
      { s with refs := bt_conn_unref s.refs old, mgr := { s.mgr with current_conn := none } }
    | none => s
  let s2 : System :=
    match conn with
    | some c =>
      let r := bt_conn_ref s1.refs c
      { s1 with refs := r.1, mgr := { s1.mgr with current_conn := r.2 } }
    | none => s1
  bme280_service_set_conn s2 conn

/-- The callback `connected`: nothing on an error; otherwise the LED goes on,
`default_conn = bt_conn_ref(conn)` and `ble_manager_set_connection(default_conn)`. -/
def connected (s : System) (conn : Conn) (err : Nat) : System :=
  if err ≠ 0 then s
  else
    let s1 : System := { s with led := true }
    let r := bt_conn_ref s1.refs conn
    let s2 : System := { s1 with refs := r.1, mgr := { s1.mgr with default_conn := r.2 } }
    ble_manager_set_connection s2 s2.mgr.default_conn

/-- The callback `disconnected`: the LED goes off, `default_conn` is released and
cleared if set, then `ble_manager_set_connection(NULL)`.  Neither argument is used
beyond the log line. -/
def disconnected (s : System) (_conn : Conn) (_reason : Nat) : System :=
  let s1 : System := { s with led := false }
  let s2 : System :=
    match s1.mgr.default_conn with
    | some d =>
      { s1 with refs := bt_conn_unref s1.refs d, mgr := { s1.mgr with default_conn := none } }
    | none => s1
  ble_manager_set_connection s2 none

/-- The calls the stack and the timer make into the sensor side. -/
inductive Event where
  | connected (conn : Conn) (err : Nat)
  | disconnected (conn : Conn) (reason : Nat)
  | temp_ccc_cfg_changed (value : Nat)
  | hum_ccc_cfg_changed (value : Nat)
  | write_thresholds (buf : List Nat) (offset : Nat)
  | update_temperature (new_temperature : Int) (err : Int)
  | update_humidity (new_humidity : Int) (err : Int)
deriving DecidableEq, Repr

/-- One event applied to the state. -/
def step (s : System) : Event → Outcome
  | .connected conn err => { state := connected s conn err, notified := [], log := [] }
  | .disconnected conn reason =>
    { state := disconnected s conn reason, notified := [], log := [] }
  | .temp_ccc_cfg_changed value =>
    { state := temp_ccc_cfg_changed s value, notified := [], log := [] }
  | .hum_ccc_cfg_changed value =>
    { state := hum_ccc_cfg_changed s value, notified := [], log := [] }
  | .write_thresholds buf offset =>
    { state := (write_thresholds_cb s buf offset).1, notified := [], log := [] }
  | .update_temperature v err => bme280_update_temperature s v err
  | .update_humidity v err => bme280_update_humidity s v err

/-- The state after a sequence of events. -/
def run (s : System) (es : List Event) : System :=
  es.foldl (fun st e => (step st e).state) s

/-! ### Trace-level notions, after the specification's words -/

/-- How one event changes whether a peer is connected: a successful connect brings
the link up, a disconnect takes it down, nothing else touches it. -/
def link_step (up : Bool) : Event → Bool
  | .connected _ err => if err = 0 then true else up
  | .disconnected _ _ => false
  | _ => up

/-- Whether a peer is connected after a sequence of events: not before the first
successful connect, not after a disconnect until the next successful connect. -/
def link_up (es : List Event) : Bool :=
  es.foldl link_step false

/-- How one event changes the temperature subscription: only a subscription change
for temperature does, and it subscribes exactly when it asks for notifications. -/
def temp_sub_step (sub : Bool) : Event → Bool
  | .temp_ccc_cfg_changed value => decide (value = BT_GATT_CCC_NOTIFY)
  | _ => sub

/-- Whether the latest subscription change for temperature asked for notifications
(no change at all counts as not subscribed). -/
def temp_subscribed (es : List Event) : Bool :=
  es.foldl temp_sub_step false

/-- How one event changes the humidity subscription. -/
def hum_sub_step (sub : Bool) : Event → Bool
  | .hum_ccc_cfg_changed value => decide (value = BT_GATT_CCC_NOTIFY)
  | _ => sub

/-- Whether the latest subscription change for humidity asked for notifications. -/
def hum_subscribed (es : List Event) : Bool :=
  es.foldl hum_sub_step false

/-- The notify flag an event consults: the temperature flag for a temperature update,
the humidity flag for a humidity update, none for any other event. -/
def flag_of (s : System) : Event → Bool
  | .update_temperature _ _ => s.svc.temp_notify_enabled
  | .update_humidity _ _ => s.svc.hum_notify_enabled
  | _ => false

/-- The subscription an event depends on, read off the trace. -/
def subscribed_for (es : List Event) : Event → Bool
  | .update_temperature _ _ => temp_subscribed es
  | .update_humidity _ _ => hum_subscribed es
  | _ => false

/-! ### The request schedule, after the specification's words -/

/-- The request frame of the specification: the command byte and a newline. -/
def request_frame : List Nat := [0x01, 0x0A]

/-- The difference `now - last_send` of two millisecond counters, computed modulo the
counter width. -/
def elapsed_ms (now last_send : Nat) : Int :=
  ((now : Int) - (last_send : Int)) % (ULONG_MOD : Int)

/-! ## Theorems: the snapshot decoder -/

theorem lor_eq_add_of_lt (a b : Nat) (h : b < 256) : (a <<< 8) ||| b = a * 256 + b := by
  have h1 := Nat.mul_add_lt_is_or (i := 8) (b := b) (by simpa using h) a
  rw [Nat.shiftLeft_eq, Nat.mul_comm a, ← h1]

theorem bytes_to_int16_eq (hi lo : Nat) (hhi : hi < 256) (hlo : lo < 256) :
    bytes_to_int16 hi lo = spec_int16 hi lo := by
  unfold bytes_to_int16 spec_int16 twos_complement toInt16
  rw [lor_eq_add_of_lt _ _ hlo]
  have h : (hi * 256 + lo) % 65536 = hi * 256 + lo := Nat.mod_eq_of_lt (by omega)
  rw [h]
  simp only [Nat.reduceSub, Nat.reducePow]
  split <;> simp

theorem pres_eq (a b c d : Nat) (ha : a < 256) (hb : b < 256) (hc : c < 256) (hd : d < 256) :
    toInt32 ((((a <<< 24) ||| (b <<< 16)) ||| (c <<< 8)) ||| d) = spec_int32 a b c d := by
  have e : (((a <<< 24) ||| (b <<< 16)) ||| (c <<< 8)) ||| d
      = a * 16777216 + b * 65536 + c * 256 + d := by
    rw [Nat.lor_assoc, Nat.lor_assoc]
    have h1 := Nat.mul_add_lt_is_or (i := 8) (b := d) (by simpa using hd) c
    have h2 := Nat.mul_add_lt_is_or (i := 16) (b := 2 ^ 8 * c + d) (by simp; omega) b
    have h3 := Nat.mul_add_lt_is_or (i := 24) (b := 2 ^ 16 * b + (2 ^ 8 * c + d)) (by simp; omega) a
    simp only [Nat.shiftLeft_eq]
    rw [Nat.mul_comm c, Nat.mul_comm b, Nat.mul_comm a, ← h1, ← h2, ← h3]
    norm_num
    ring
  unfold toInt32 spec_int32 twos_complement
  rw [e]
  have h : (a * 16777216 + b * 65536 + c * 256 + d) % 4294967296
      = a * 16777216 + b * 65536 + c * 256 + d := Nat.mod_eq_of_lt (by omega)
  rw [h]
  simp only [Nat.reduceSub, Nat.reducePow]
  split <;> simp

theorem read_loop_idx_ge (avail : List Nat) :
    ∀ (rx : Nat → Nat) (idx : Nat), idx ≤ (read_loop rx idx avail).2.1 := by
  induction avail with
  | nil => intro rx idx; simp [read_loop]
  | cons b rest ih =>
    intro rx idx
    unfold read_loop
    split
    · exact Nat.le_of_succ_le (ih _ (idx + 1))
    · exact Nat.le_refl _

theorem read_loop_keep (avail : List Nat) :
    ∀ (rx : Nat → Nat) (idx i : Nat), i < idx → (read_loop rx idx avail).1 i = rx i := by
  induction avail with
  | nil => intro rx idx i _; simp [read_loop]
  | cons b rest ih =>
    intro rx idx i hi
    unfold read_loop
    split
    · rw [ih _ (idx + 1) i (by omega)]
      simp [Nat.ne_of_lt hi]
    · rfl

theorem read_loop_idx (avail : List Nat) :
    ∀ (rx : Nat → Nat) (idx : Nat), idx ≤ RX_BUF_SIZE →
      (read_loop rx idx avail).2.1 = min (idx + avail.length) RX_BUF_SIZE := by
  induction avail with
  | nil => intro rx idx h; simp [read_loop]; omega
  | cons b rest ih =>
    intro rx idx h
    unfold read_loop
    split
    · rw [ih _ (idx + 1) (by omega)]
      simp only [List.length_cons]
      omega
    · simp only [List.length_cons]
      omega

theorem read_loop_get (avail : List Nat) :
    ∀ (rx : Nat → Nat) (idx i : Nat), idx ≤ i → i < idx + avail.length → i < RX_BUF_SIZE →
      (read_loop rx idx avail).1 i = avail.getD (i - idx) 0 % 256 := by
  induction avail with
  | nil => intro rx idx i h1 h2 _; simp at h2; omega
  | cons b rest ih =>
    intro rx idx i h1 h2 h3
    unfold read_loop
    have hidx : idx < RX_BUF_SIZE := by omega
    rw [if_pos hidx]
    rcases Nat.eq_or_lt_of_le h1 with h | h
    · subst h
      rw [read_loop_keep rest _ (idx + 1) idx (by omega)]
      simp
    · rw [ih _ (idx + 1) i (by omega) (by simp only [List.length_cons] at h2; omega) h3]
      have : i - idx = (i - (idx + 1)) + 1 := by omega
      rw [this, List.getD_cons_succ]

/-- Bytes received at positions below 33 land in the buffer at the same position. -/
theorem rx_buf_get (rx : Nat → Nat) (bs : List Nat) (i : Nat) (h : i < bs.length)
    (h33 : i < RX_BUF_SIZE) : (read_loop rx 0 bs).1 i = bs.getD i 0 % 256 := by
  simpa using read_loop_get bs rx 0 i (Nat.zero_le _) (by omega) h33


/-- The bytes of a sequence as the parse block sees them. -/
theorem snapshot_of_frame (st : UartManager) (now : Nat) (bs : List Nat)
    (hlen : 19 ≤ bs.length) (hbytes : ∀ i, i < 19 → bs.getD i 0 < 256)
    (hcmd : bs.getD 0 0 = 0x01) :
    (uart_manager_update st now bs).snapshot = some (spec_decode bs) := by
  have hidx : 19 ≤ (read_loop st.rx_buf 0 bs).2.1 := by
    rw [read_loop_idx bs _ 0 (by simp [RX_BUF_SIZE])]
    simp only [RX_BUF_SIZE]
    omega
  have hget : ∀ i, i < 19 → (read_loop st.rx_buf 0 bs).1 i = bs.getD i 0 := by
    intro i hi
    rw [rx_buf_get _ _ _ (by omega) (by simp only [RX_BUF_SIZE]; omega)]
    exact Nat.mod_eq_of_lt (hbytes i hi)
  have hpos : (read_loop st.rx_buf 0 bs).2.1 > 0 := by omega
  simp only [uart_manager_update, parse_response, if_pos hpos]
  rw [if_pos ⟨by rw [hget 0 (by omega), hcmd]; rfl, hidx⟩]
  simp only [hget _ (by omega : (1:Nat) < 19), hget _ (by omega : (2:Nat) < 19),
    hget _ (by omega : (3:Nat) < 19), hget _ (by omega : (4:Nat) < 19),
    hget _ (by omega : (5:Nat) < 19), hget _ (by omega : (6:Nat) < 19),
    hget _ (by omega : (7:Nat) < 19), hget _ (by omega : (8:Nat) < 19),
    hget _ (by omega : (9:Nat) < 19), hget _ (by omega : (10:Nat) < 19),
    hget _ (by omega : (11:Nat) < 19), hget _ (by omega : (12:Nat) < 19),
    hget _ (by omega : (13:Nat) < 19), hget _ (by omega : (14:Nat) < 19),
    hget _ (by omega : (15:Nat) < 19), hget _ (by omega : (16:Nat) < 19),
    hget _ (by omega : (17:Nat) < 19), hget _ (by omega : (18:Nat) < 19)]
  have B := fun i => hbytes i
  simp only [spec_decode, bytes_to_int16_eq _ _ (B _ (by omega : (1:Nat) < 19)) (B _ (by omega : (2:Nat) < 19)),
    bytes_to_int16_eq _ _ (B _ (by omega : (3:Nat) < 19)) (B _ (by omega : (4:Nat) < 19)),
    bytes_to_int16_eq _ _ (B _ (by omega : (5:Nat) < 19)) (B _ (by omega : (6:Nat) < 19)),
    bytes_to_int16_eq _ _ (B _ (by omega : (7:Nat) < 19)) (B _ (by omega : (8:Nat) < 19)),
    bytes_to_int16_eq _ _ (B _ (by omega : (11:Nat) < 19)) (B _ (by omega : (12:Nat) < 19)),
    bytes_to_int16_eq _ _ (B _ (by omega : (13:Nat) < 19)) (B _ (by omega : (14:Nat) < 19)),
    bytes_to_int16_eq _ _ (B _ (by omega : (15:Nat) < 19)) (B _ (by omega : (16:Nat) < 19)),
    bytes_to_int16_eq _ _ (B _ (by omega : (17:Nat) < 19)) (B _ (by omega : (18:Nat) < 19)),
    pres_eq _ _ _ _ (B _ (by omega : (9:Nat) < 19)) (B _ (by omega : (10:Nat) < 19))
      (B _ (by omega : (11:Nat) < 19)) (B _ (by omega : (12:Nat) < 19))]

theorem getD_lt_of_forall (bs : List Nat) (h : ∀ b ∈ bs, b < 256) (i : Nat) :
    bs.getD i 0 < 256 := by
  by_cases hi : i < bs.length
  · rw [List.getD_eq_getElem _ _ hi]
    exact h _ (List.getElem_mem hi)
  · rw [List.getD_eq_default _ _ (by omega)]
    omega

theorem getD_of_take_eq (bs bs2 : List Nat) (n i : Nat) (h : bs2.take n = bs.take n)
    (hi : i < n) : bs2.getD i 0 = bs.getD i 0 := by
  have h1 : (bs2.take n).getD i 0 = (bs.take n).getD i 0 := by rw [h]
  simpa [List.getD_eq_getElem?_getD, List.getElem?_take, hi] using h1

theorem spec_decode_congr (bs bs2 : List Nat) (h : ∀ i, i < 19 → bs2.getD i 0 = bs.getD i 0) :
    spec_decode bs2 = spec_decode bs := by
  simp only [spec_decode, h 1 (by omega), h 2 (by omega), h 3 (by omega), h 4 (by omega),
    h 5 (by omega), h 6 (by omega), h 7 (by omega), h 8 (by omega), h 9 (by omega),
    h 10 (by omega), h 11 (by omega), h 12 (by omega), h 13 (by omega), h 14 (by omega),
    h 15 (by omega), h 16 (by omega), h 17 (by omega), h 18 (by omega)]

/-- C1: a received sequence of at least 19 bytes whose byte 0 is 0x01 is decoded to
exactly the big-endian two's-complement fields of the offset table (bytes 11-12 feed
both the pressure and `t_min`), whatever the buffer held before and whatever the
clock says; any other sequence with the same first 19 bytes decodes to the same
fields, so bytes past index 18 have no influence. -/
theorem decode_matches_offset_table (st : UartManager) (now : Nat) (bs : List Nat)
    (hlen : 19 ≤ bs.length) (hbytes : ∀ b ∈ bs, b < 256) (hcmd : bs.getD 0 0 = 0x01) :
    (uart_manager_update st now bs).snapshot = some (spec_decode bs) ∧
    ∀ (st2 : UartManager) (now2 : Nat) (bs2 : List Nat), bs2.take 19 = bs.take 19 →
      (uart_manager_update st2 now2 bs2).snapshot = (uart_manager_update st now bs).snapshot := by
  have hB : ∀ i, i < 19 → bs.getD i 0 < 256 := fun i _ => getD_lt_of_forall bs hbytes i
  refine ⟨snapshot_of_frame st now bs hlen hB hcmd, ?_⟩
  intro st2 now2 bs2 htake
  have hg : ∀ i, i < 19 → bs2.getD i 0 = bs.getD i 0 :=
    fun i hi => getD_of_take_eq bs bs2 19 i htake hi
  have hlen2 : 19 ≤ bs2.length := by
    have := congrArg List.length htake
    simp only [List.length_take] at this
    omega
  rw [snapshot_of_frame st now bs hlen hB hcmd,
    snapshot_of_frame st2 now2 bs2 hlen2 (fun i hi => by rw [hg i hi]; exact hB i hi)
      (by rw [hg 0 (by omega)]; exact hcmd),
    spec_decode_congr bs bs2 hg]

/-- The decoder theorem applied to the scenario response, from the zeroed statics. -/
theorem decode_matches_offset_table_witness :
    (19 ≤ scenario_response.length ∧ (∀ b ∈ scenario_response, b < 256) ∧
      scenario_response.getD 0 0 = 0x01) ∧
    ((uart_manager_update UartManager.boot 0 scenario_response).snapshot
        = some (spec_decode scenario_response) ∧
      ∀ (st2 : UartManager) (now2 : Nat) (bs2 : List Nat),
        bs2.take 19 = scenario_response.take 19 →
        (uart_manager_update st2 now2 bs2).snapshot
          = (uart_manager_update UartManager.boot 0 scenario_response).snapshot) :=
  ⟨⟨by decide, by decide, by decide⟩,
    decode_matches_offset_table UartManager.boot 0 scenario_response (by decide) (by decide)
      (by decide)⟩

/-- C2: an empty sequence, a sequence shorter than 19 bytes, or one whose byte 0 is
not 0x01 yields no snapshot, whatever the static buffer still holds from earlier. -/
theorem malformed_frame_yields_nothing (st : UartManager) (now : Nat) (bs : List Nat)
    (hbytes : ∀ b ∈ bs, b < 256)
    (h : bs = [] ∨ bs.length < 19 ∨ bs.getD 0 0 ≠ 0x01) :
    (uart_manager_update st now bs).snapshot = none := by
  have hidx := read_loop_idx bs st.rx_buf 0 (by simp [RX_BUF_SIZE])
  simp only [uart_manager_update, parse_response]
  split
  · rename_i hpos
    rw [if_neg]
    rintro ⟨h0, h19⟩
    have hne : bs ≠ [] := by
      rintro rfl
      simp [read_loop] at hpos
    have hlen : 0 < bs.length := List.length_pos.mpr hne
    rcases h with h | h | h
    · exact hne h
    · rw [hidx] at h19
      simp only [RX_BUF_SIZE] at h19
      omega
    · rw [rx_buf_get _ _ _ hlen (by simp [RX_BUF_SIZE]),
        Nat.mod_eq_of_lt (getD_lt_of_forall bs hbytes 0)] at h0
      exact h h0
  · rfl

/-- The rejection theorem applied to the scenario response cut to 18 bytes, while the
static buffer still holds the whole valid frame from an earlier call. -/
theorem malformed_frame_yields_nothing_witness :
    ((∀ b ∈ scenario_response.take 18, b < 256) ∧ (scenario_response.take 18).length < 19) ∧
    (uart_manager_update
        { last_send := 0, rx_buf := fun i => scenario_response.getD i 0 } 0
        (scenario_response.take 18)).snapshot = none :=
  ⟨⟨by decide, by decide⟩,
    malformed_frame_yields_nothing _ 0 (scenario_response.take 18) (by decide)
      (Or.inr (Or.inl (by decide)))⟩

/-- C3, as stated, fails: the scenario's bytes 3-4 are 0x12 0xC8, which is 4808, so
no decoding of the scenario response has dht_humidity = 4800 next to the other four
values. -/
theorem scenario_dht_humidity_is_not_4800 :
    ¬ ∃ s, (uart_manager_update UartManager.boot 0 scenario_response).snapshot = some s ∧
      s.dht_temp = 2345 ∧ s.dht_hum = 4800 ∧ s.bme_temp = 2760 ∧ s.bme_hum = 7000 ∧
      s.bme_pres = 10000 := by
  rintro ⟨s, hs, -, h, -⟩
  have e : (uart_manager_update UartManager.boot 0 scenario_response).snapshot
      = some (spec_decode scenario_response) :=
    snapshot_of_frame _ _ _ (by decide) (by decide) (by decide)
  rw [e] at hs
  cases hs
  revert h
  decide

/-- C3, amended: decoding the scenario response yields dht_temperature = 2345,
dht_humidity = 4808, ambient_temperature = 2760, ambient_humidity = 7000 and
ambient_pressure = 10000, from any prior buffer content and at any time. -/
theorem scenario_decodes (st : UartManager) (now : Nat) :
    ∃ s, (uart_manager_update st now scenario_response).snapshot = some s ∧
      s.dht_temp = 2345 ∧ s.dht_hum = 4808 ∧ s.bme_temp = 2760 ∧ s.bme_hum = 7000 ∧
      s.bme_pres = 10000 := by
  refine ⟨spec_decode scenario_response,
    snapshot_of_frame _ _ _ (by decide) (by decide) (by decide), ?_⟩
  decide

/-! ## Theorems: the threshold store -/

theorem write_thresholds_cb_accept (s : System) (buf : List Nat) (h : buf.length = 8) :
    write_thresholds_cb s buf 0 =
      ({ s with svc := { s.svc with thresholds := thresholds_of_bytes buf } }, (8 : Int)) := by
  simp [write_thresholds_cb, SIZEOF_THRESHOLDS, h]

theorem write_thresholds_cb_reject (s : System) (buf : List Nat) (offset : Nat)
    (h : ¬ (offset = 0 ∧ buf.length = 8)) :
    write_thresholds_cb s buf offset = (s, BT_GATT_ERR BT_ATT_ERR_INVALID_OFFSET) := by
  have h2 : offset ≠ 0 ∨ buf.length ≠ SIZEOF_THRESHOLDS := by
    simp only [SIZEOF_THRESHOLDS]
    by_cases h0 : offset = 0
    · exact Or.inr (fun h8 => h ⟨h0, h8⟩)
    · exact Or.inl h0
  simp only [write_thresholds_cb, if_pos h2]

/-- C4: `write_thresholds_cb` returns the payload length if and only if the offset is
0 and the payload has exactly 8 bytes; in every other case it returns the
invalid-offset error and leaves the whole state, the stored tuple included, as it
was.  A 6-byte payload at offset 0 is such a case. -/
theorem write_thresholds_succeeds_iff (s : System) (buf : List Nat) (offset : Nat) :
    ((write_thresholds_cb s buf offset).2 = (buf.length : Int) ↔
      (offset = 0 ∧ buf.length = 8)) ∧
    (¬ (offset = 0 ∧ buf.length = 8) →
      (write_thresholds_cb s buf offset).2 = BT_GATT_ERR BT_ATT_ERR_INVALID_OFFSET ∧
      (write_thresholds_cb s buf offset).1 = s) ∧
    write_thresholds_cb s [0xDC, 0x05, 0xB8, 0x0B, 0xA0, 0x0F] 0
      = (s, BT_GATT_ERR BT_ATT_ERR_INVALID_OFFSET) := by
  refine ⟨⟨?_, ?_⟩, ?_, ?_⟩
  · intro hret
    by_contra hne
    rw [write_thresholds_cb_reject s buf offset hne] at hret
    simp only [BT_GATT_ERR, BT_ATT_ERR_INVALID_OFFSET] at hret
    omega
  · rintro ⟨rfl, h8⟩
    rw [write_thresholds_cb_accept s buf h8, h8]
    rfl
  · intro hne
    rw [write_thresholds_cb_reject s buf offset hne]
    exact ⟨rfl, rfl⟩
  · exact write_thresholds_cb_reject s _ 0 (by decide)

theorem le16_roundtrip (b0 b1 : Nat) (h0 : b0 < 256) (h1 : b1 < 256) :
    store_le16 (load_le16 b0 b1) = [b0, b1] := by
  simp only [store_le16, load_le16]
  congr 1
  · omega
  · congr 1
    omega

theorem thresholds_bytes_of_bytes (p : List Nat) (hp : p.length = 8)
    (hbytes : ∀ b ∈ p, b < 256) : thresholds_bytes (thresholds_of_bytes p) = p := by
  match p, hp with
  | [b0, b1, b2, b3, b4, b5, b6, b7], _ =>
    simp only [List.mem_cons, List.mem_singleton, forall_eq_or_imp, forall_eq,
      List.not_mem_nil, false_imp_iff, implies_true, and_true] at hbytes
    obtain ⟨h0, h1, h2, h3, h4, h5, h6, h7⟩ := hbytes
    simp [thresholds_bytes, thresholds_of_bytes, le16_roundtrip, h0, h1, h2, h3, h4, h5, h6, h7]

/-- C5: after an 8-byte payload `p` is written at offset 0 the stored tuple is the
one `p` alone determines, whatever the tuple was before (two writes of `p` from any
two states store the same tuple), and a read at offset 0 of at least 8 bytes returns
length 8 and exactly the bytes of `p`. -/
theorem write_replaces_whole_tuple (s s2 : System) (p : List Nat) (len : Nat)
    (hp : p.length = 8) (hbytes : ∀ b ∈ p, b < 256) (hlen : 8 ≤ len) :
    (write_thresholds_cb s p 0).2 = 8 ∧
    (write_thresholds_cb s p 0).1.svc.thresholds = thresholds_of_bytes p ∧
    (write_thresholds_cb s p 0).1.svc.thresholds
      = (write_thresholds_cb s2 p 0).1.svc.thresholds ∧
    read_thresholds_cb (write_thresholds_cb s p 0).1 len 0 = ((8 : Int), p) := by
  rw [write_thresholds_cb_accept s p hp, write_thresholds_cb_accept s2 p hp]
  refine ⟨rfl, rfl, rfl, ?_⟩
  simp only [read_thresholds_cb, thresholds_bytes_of_bytes p hp hbytes, bt_gatt_attr_read]
  simp [hp, hlen]

/-- The write-then-read theorem applied to the payload of 1000, 2500, 3000, 8000. -/
theorem write_replaces_whole_tuple_witness :
    (([0xE8, 0x03, 0xC4, 0x09, 0xB8, 0x0B, 0x40, 0x1F] : List Nat).length = 8 ∧
      (∀ b ∈ ([0xE8, 0x03, 0xC4, 0x09, 0xB8, 0x0B, 0x40, 0x1F] : List Nat), b < 256) ∧
      8 ≤ 8) ∧
    ((write_thresholds_cb System.boot [0xE8, 0x03, 0xC4, 0x09, 0xB8, 0x0B, 0x40, 0x1F] 0).2 = 8 ∧
      (write_thresholds_cb System.boot
          [0xE8, 0x03, 0xC4, 0x09, 0xB8, 0x0B, 0x40, 0x1F] 0).1.svc.thresholds
        = thresholds_of_bytes [0xE8, 0x03, 0xC4, 0x09, 0xB8, 0x0B, 0x40, 0x1F] ∧
      (write_thresholds_cb System.boot
          [0xE8, 0x03, 0xC4, 0x09, 0xB8, 0x0B, 0x40, 0x1F] 0).1.svc.thresholds
        = (write_thresholds_cb (connected System.boot 1 0)
          [0xE8, 0x03, 0xC4, 0x09, 0xB8, 0x0B, 0x40, 0x1F] 0).1.svc.thresholds ∧
      read_thresholds_cb
          (write_thresholds_cb System.boot [0xE8, 0x03, 0xC4, 0x09, 0xB8, 0x0B, 0x40, 0x1F] 0).1
          8 0
        = ((8 : Int), [0xE8, 0x03, 0xC4, 0x09, 0xB8, 0x0B, 0x40, 0x1F])) :=
  ⟨⟨by decide, by decide, by decide⟩,
    write_replaces_whole_tuple System.boot (connected System.boot 1 0)
      [0xE8, 0x03, 0xC4, 0x09, 0xB8, 0x0B, 0x40, 0x1F] 8 (by decide) (by decide) (by decide)⟩

/-! ## Theorems: the telemetry mirror -/

theorem set_conn_svc (s : System) (conn : Option Conn) :
    (bme280_service_set_conn s conn).svc = { s.svc with current_conn := conn } := by
  unfold bme280_service_set_conn
  cases hc : s.svc.current_conn <;> cases conn <;> simp [bt_conn_ref, hc]
  rw [← hc]

theorem manager_set_conn_svc (s : System) (conn : Option Conn) :
    (ble_manager_set_connection s conn).svc = { s.svc with current_conn := conn } := by
  unfold ble_manager_set_connection
  rw [set_conn_svc]
  cases s.mgr.current_conn <;> cases conn <;> rfl

theorem connected_svc (s : System) (conn : Conn) :
    (connected s conn 0).svc = { s.svc with current_conn := some conn } := by
  simp [connected, manager_set_conn_svc, bt_conn_ref]

theorem connected_failed (s : System) (conn : Conn) (err : Nat) (h : err ≠ 0) :
    connected s conn err = s := by
  simp [connected, h]

theorem disconnected_svc (s : System) (conn : Conn) (reason : Nat) :
    (disconnected s conn reason).svc = { s.svc with current_conn := none } := by
  unfold disconnected
  rw [manager_set_conn_svc]
  cases s.mgr.default_conn <;> rfl

theorem update_temperature_state (s : System) (v err : Int) :
    (bme280_update_temperature s v err).state
      = { s with svc := { s.svc with temperature := v } } := by
  unfold bme280_update_temperature
  cases hc : s.svc.current_conn with
  | none => simp only [hc]
  | some c =>
    simp only [hc]
    split <;> rfl

theorem update_humidity_state (s : System) (v err : Int) :
    (bme280_update_humidity s v err).state
      = { s with svc := { s.svc with humidity := v } } := by
  unfold bme280_update_humidity
  cases hc : s.svc.current_conn with
  | none => simp only [hc]
  | some c =>
    simp only [hc]
    split <;> rfl

theorem write_thresholds_cb_svc (s : System) (buf : List Nat) (offset : Nat) :
    (write_thresholds_cb s buf offset).1.svc.current_conn = s.svc.current_conn ∧
    (write_thresholds_cb s buf offset).1.svc.temp_notify_enabled = s.svc.temp_notify_enabled ∧
    (write_thresholds_cb s buf offset).1.svc.hum_notify_enabled = s.svc.hum_notify_enabled := by
  by_cases h : offset = 0 ∧ buf.length = 8
  · obtain ⟨rfl, h8⟩ := h
    rw [write_thresholds_cb_accept s buf h8]
    exact ⟨rfl, rfl, rfl⟩
  · rw [write_thresholds_cb_reject s buf offset h]
    exact ⟨rfl, rfl, rfl⟩

/-- One event moves the mirror's handle and flags exactly as it moves the trace-level
link and subscriptions. -/
theorem step_tracks (s : System) (e : Event) :
    (step s e).state.svc.current_conn.isSome = link_step s.svc.current_conn.isSome e ∧
    (step s e).state.svc.temp_notify_enabled = temp_sub_step s.svc.temp_notify_enabled e ∧
    (step s e).state.svc.hum_notify_enabled = hum_sub_step s.svc.hum_notify_enabled e := by
  cases e with
  | connected conn err =>
    by_cases h : err = 0
    · subst h
      simp [step, connected_svc, link_step, temp_sub_step, hum_sub_step]
    · simp [step, connected_failed s conn err h, link_step, temp_sub_step, hum_sub_step, h]
  | disconnected conn reason =>
    simp [step, disconnected_svc, link_step, temp_sub_step, hum_sub_step]
  | temp_ccc_cfg_changed value =>
    simp [step, temp_ccc_cfg_changed, link_step, temp_sub_step, hum_sub_step]
  | hum_ccc_cfg_changed value =>
    simp [step, hum_ccc_cfg_changed, link_step, temp_sub_step, hum_sub_step]
  | write_thresholds buf offset =>
    obtain ⟨h1, h2, h3⟩ := write_thresholds_cb_svc s buf offset
    simp [step, link_step, temp_sub_step, hum_sub_step, h1, h2, h3]
  | update_temperature v err =>
    simp [step, update_temperature_state, link_step, temp_sub_step, hum_sub_step]
  | update_humidity v err =>
    simp [step, update_humidity_state, link_step, temp_sub_step, hum_sub_step]

theorem run_tracks (es : List Event) :
    ∀ s : System,
      (run s es).svc.current_conn.isSome = es.foldl link_step s.svc.current_conn.isSome ∧
      (run s es).svc.temp_notify_enabled = es.foldl temp_sub_step s.svc.temp_notify_enabled ∧
      (run s es).svc.hum_notify_enabled = es.foldl hum_sub_step s.svc.hum_notify_enabled := by
  induction es with
  | nil => intro s; exact ⟨rfl, rfl, rfl⟩
  | cons e rest ih =>
    intro s
    obtain ⟨h1, h2, h3⟩ := step_tracks s e
    obtain ⟨i1, i2, i3⟩ := ih (step s e).state
    simp only [run, List.foldl_cons] at i1 i2 i3 ⊢
    rw [i1, i2, i3, h1, h2, h3]
    exact ⟨rfl, rfl, rfl⟩

theorem update_temperature_gate (s : System) (v err : Int)
    (h : (bme280_update_temperature s v err).notified ≠ []) :
    s.svc.current_conn.isSome = true ∧ s.svc.temp_notify_enabled = true := by
  unfold bme280_update_temperature at h
  cases hc : s.svc.current_conn with
  | none => simp [hc] at h
  | some c =>
    simp only [hc] at h
    split at h
    · rename_i hcond
      exact ⟨rfl, hcond.1⟩
    · exact absurd rfl h

theorem update_humidity_gate (s : System) (v err : Int)
    (h : (bme280_update_humidity s v err).notified ≠ []) :
    s.svc.current_conn.isSome = true ∧ s.svc.hum_notify_enabled = true := by
  unfold bme280_update_humidity at h
  cases hc : s.svc.current_conn with
  | none => simp [hc] at h
  | some c =>
    simp only [hc] at h
    split at h
    · rename_i hcond
      exact ⟨rfl, hcond.1⟩
    · exact absurd rfl h

/-- C6: after any sequence of events from the initial state, if the next event makes
a notification attempt, then at that moment the mirror holds a connection handle and
the flag of the quantity being updated is enabled; and then the trace has a
successful connect with no disconnect after it, and the latest subscription change
for that quantity asked for notifications.  So nothing is announced before the first
successful connect, after a disconnect until the next connect, or while the latest
subscription change was not notify. -/
theorem announce_only_when_armed (es : List Event) (e : Event)
    (h : (step (run System.boot es) e).notified ≠ []) :
    (run System.boot es).svc.current_conn.isSome = true ∧
    flag_of (run System.boot es) e = true ∧
    link_up es = true ∧
    subscribed_for es e = true := by
  obtain ⟨t1, t2, t3⟩ := run_tracks es System.boot
  have b1 : System.boot.svc.current_conn.isSome = false := rfl
  have b2 : System.boot.svc.temp_notify_enabled = false := rfl
  have b3 : System.boot.svc.hum_notify_enabled = false := rfl
  rw [b1] at t1
  rw [b2] at t2
  rw [b3] at t3
  cases e with
  | connected conn err => exact absurd rfl h
  | disconnected conn reason => exact absurd rfl h
  | temp_ccc_cfg_changed value => exact absurd rfl h
  | hum_ccc_cfg_changed value => exact absurd rfl h
  | write_thresholds buf offset => exact absurd rfl h
  | update_temperature v err =>
    obtain ⟨g1, g2⟩ := update_temperature_gate _ v err h
    refine ⟨g1, g2, ?_, ?_⟩
    · rw [link_up, ← t1]; exact g1
    · simp only [subscribed_for, temp_subscribed]
      rw [← t2]; exact g2
  | update_humidity v err =>
    obtain ⟨g1, g2⟩ := update_humidity_gate _ v err h
    refine ⟨g1, g2, ?_, ?_⟩
    · rw [link_up, ← t1]; exact g1
    · simp only [subscribed_for, hum_subscribed]
      rw [← t3]; exact g2

/-- The gating theorem applied after a successful connect and a temperature
subscription, at a temperature update to 3200. -/
theorem announce_only_when_armed_witness :
    (step (run System.boot [Event.connected 7 0, Event.temp_ccc_cfg_changed 1])
        (Event.update_temperature 3200 0)).notified ≠ [] ∧
    ((run System.boot [Event.connected 7 0, Event.temp_ccc_cfg_changed 1]).svc.current_conn.isSome
        = true ∧
      flag_of (run System.boot [Event.connected 7 0, Event.temp_ccc_cfg_changed 1])
        (Event.update_temperature 3200 0) = true ∧
      link_up [Event.connected 7 0, Event.temp_ccc_cfg_changed 1] = true ∧
      subscribed_for [Event.connected 7 0, Event.temp_ccc_cfg_changed 1]
        (Event.update_temperature 3200 0) = true) :=
  ⟨by decide,
    announce_only_when_armed [Event.connected 7 0, Event.temp_ccc_cfg_changed 1]
      (Event.update_temperature 3200 0) (by decide)⟩

theorem update_temperature_notified (s : System) (c : Conn) (v err : Int)
    (hconn : s.svc.current_conn = some c) (hflag : s.svc.temp_notify_enabled = true) :
    (bme280_update_temperature s v err).notified =
      if v < toInt16 s.svc.thresholds.t_min ∨ v > toInt16 s.svc.thresholds.t_max then
        [{ conn := c, attr := 2, value := v }]
      else [] := by
  unfold bme280_update_temperature
  simp only [hconn, hflag, true_and]
  split <;> rfl

theorem update_humidity_notified (s : System) (c : Conn) (v err : Int)
    (hconn : s.svc.current_conn = some c) (hflag : s.svc.hum_notify_enabled = true) :
    (bme280_update_humidity s v err).notified =
      if v < toInt16 s.svc.thresholds.h_min ∨ v > toInt16 s.svc.thresholds.h_max then
        [{ conn := c, attr := 6, value := v }]
      else [] := by
  unfold bme280_update_humidity
  simp only [hconn, hflag, true_and]
  split <;> rfl

/-- C7: while the mirror holds a handle `c`, an update of a quantity whose flag is
enabled makes exactly one notification attempt (to `c`, carrying the new value) when
the new value is below the minimum or above the maximum of that quantity's bound
pair, and none when it lies between them; the bounds are the stored 16-bit entries
read as `int16`, `t_min`/`t_max` for temperature and `h_min`/`h_max` for humidity.
With the default thresholds a temperature of 3200 is announced and 2000 is not. -/
theorem announce_iff_out_of_range (s : System) (c : Conn) (v err : Int)
    (hconn : s.svc.current_conn = some c) :
    (s.svc.temp_notify_enabled = true →
      ((v < toInt16 s.svc.thresholds.t_min ∨ v > toInt16 s.svc.thresholds.t_max) →
        (bme280_update_temperature s v err).notified = [{ conn := c, attr := 2, value := v }]) ∧
      ((toInt16 s.svc.thresholds.t_min ≤ v ∧ v ≤ toInt16 s.svc.thresholds.t_max) →
        (bme280_update_temperature s v err).notified = [])) ∧
    (s.svc.hum_notify_enabled = true →
      ((v < toInt16 s.svc.thresholds.h_min ∨ v > toInt16 s.svc.thresholds.h_max) →
        (bme280_update_humidity s v err).notified = [{ conn := c, attr := 6, value := v }]) ∧
      ((toInt16 s.svc.thresholds.h_min ≤ v ∧ v ≤ toInt16 s.svc.thresholds.h_max) →
        (bme280_update_humidity s v err).notified = [])) ∧
    (s.svc.temp_notify_enabled = true → s.svc.thresholds = Thresholds.initial →
      (bme280_update_temperature s 3200 err).notified = [{ conn := c, attr := 2, value := 3200 }] ∧
      (bme280_update_temperature s 2000 err).notified = []) := by
  refine ⟨fun hflag => ⟨fun hout => ?_, fun hin => ?_⟩,
    fun hflag => ⟨fun hout => ?_, fun hin => ?_⟩, fun hflag hth => ⟨?_, ?_⟩⟩
  · rw [update_temperature_notified s c v err hconn hflag, if_pos hout]
  · rw [update_temperature_notified s c v err hconn hflag, if_neg (by omega)]
  · rw [update_humidity_notified s c v err hconn hflag, if_pos hout]
  · rw [update_humidity_notified s c v err hconn hflag, if_neg (by omega)]
  · rw [update_temperature_notified s c 3200 err hconn hflag, hth, if_pos (by decide)]
  · rw [update_temperature_notified s c 2000 err hconn hflag, hth, if_neg (by decide)]

/-- The announce theorem applied to the state after a successful connect of handle 7
and a temperature subscription, with the default thresholds. -/
theorem announce_iff_out_of_range_witness :
    (temp_ccc_cfg_changed (connected System.boot 7 0) 1).svc.current_conn = some 7 ∧
    (bme280_update_temperature (temp_ccc_cfg_changed (connected System.boot 7 0) 1)
        3200 0).notified = [{ conn := 7, attr := 2, value := 3200 }] ∧
    (bme280_update_temperature (temp_ccc_cfg_changed (connected System.boot 7 0) 1)
        2000 0).notified = [] :=
  ⟨by decide,
    ((announce_iff_out_of_range (temp_ccc_cfg_changed (connected System.boot 7 0) 1) 7 0 0
      (by decide)).2.2 (by decide) (by decide)).1,
    ((announce_iff_out_of_range (temp_ccc_cfg_changed (connected System.boot 7 0) 1) 7 0 0
      (by decide)).2.2 (by decide) (by decide)).2⟩

theorem update_temperature_attempts (s : System) (v err : Int) :
    (bme280_update_temperature s v err).notified.length ≤ 1 := by
  unfold bme280_update_temperature
  cases hc : s.svc.current_conn with
  | none => simp [hc]
  | some c =>
    simp only [hc]
    split <;> simp

theorem update_humidity_attempts (s : System) (v err : Int) :
    (bme280_update_humidity s v err).notified.length ≤ 1 := by
  unfold bme280_update_humidity
  cases hc : s.svc.current_conn with
  | none => simp [hc]
  | some c =>
    simp only [hc]
    split <;> simp

/-- C8: after `bme280_update_temperature` the stored temperature is the new value, for
every state and every result of the notification attempt, and nothing else in the
state changes: humidity, the threshold tuple, both notify flags, the mirror's
connection handle, the manager's slots, the reference counts and the LED; at most one
attempt is made whatever it returns, so a failed one is not retried.  The same holds
for `bme280_update_humidity` with the two quantities exchanged. -/
theorem update_stores_value_only (s : System) (v err : Int) :
    ((bme280_update_temperature s v err).state.svc.temperature = v ∧
      (bme280_update_temperature s v err).state.svc.humidity = s.svc.humidity ∧
      (bme280_update_temperature s v err).state.svc.thresholds = s.svc.thresholds ∧
      (bme280_update_temperature s v err).state.svc.temp_notify_enabled
        = s.svc.temp_notify_enabled ∧
      (bme280_update_temperature s v err).state.svc.hum_notify_enabled
        = s.svc.hum_notify_enabled ∧
      (bme280_update_temperature s v err).state.svc.current_conn = s.svc.current_conn ∧
      (bme280_update_temperature s v err).state.mgr = s.mgr ∧
      (bme280_update_temperature s v err).state.refs = s.refs ∧
      (bme280_update_temperature s v err).state.led = s.led ∧
      (bme280_update_temperature s v err).notified.length ≤ 1) ∧
    ((bme280_update_humidity s v err).state.svc.humidity = v ∧
      (bme280_update_humidity s v err).state.svc.temperature = s.svc.temperature ∧
      (bme280_update_humidity s v err).state.svc.thresholds = s.svc.thresholds ∧
      (bme280_update_humidity s v err).state.svc.temp_notify_enabled
        = s.svc.temp_notify_enabled ∧
      (bme280_update_humidity s v err).state.svc.hum_notify_enabled
        = s.svc.hum_notify_enabled ∧
      (bme280_update_humidity s v err).state.svc.current_conn = s.svc.current_conn ∧
      (bme280_update_humidity s v err).state.mgr = s.mgr ∧
      (bme280_update_humidity s v err).state.refs = s.refs ∧
      (bme280_update_humidity s v err).state.led = s.led ∧
      (bme280_update_humidity s v err).notified.length ≤ 1) := by
  rw [update_temperature_state, update_humidity_state]
  exact ⟨⟨rfl, rfl, rfl, rfl, rfl, rfl, rfl, rfl, rfl, update_temperature_attempts s v err⟩,
    ⟨rfl, rfl, rfl, rfl, rfl, rfl, rfl, rfl, rfl, update_humidity_attempts s v err⟩⟩

/-! ## Theorems: the connection registry -/

/-- C9 at its failing input: from the initial state, a successful connect of handle 1
followed by a successful connect of handle 2.  `connected` overwrites `default_conn`
without releasing it: afterwards every slot holds handle 2, yet handle 1 still
carries one reference that no slot accounts for, and a later disconnect empties the
slots and releases all of handle 2 while handle 1 keeps its reference. -/
theorem second_connect_leaks_reference :
    (connected (connected System.boot 1 0) 2 0).mgr.default_conn = some 2 ∧
    (connected (connected System.boot 1 0) 2 0).mgr.current_conn = some 2 ∧
    (connected (connected System.boot 1 0) 2 0).svc.current_conn = some 2 ∧
    (connected (connected System.boot 1 0) 2 0).refs 1 = 1 ∧
    (connected (connected System.boot 1 0) 2 0).refs 2 = 3 ∧
    (disconnected (connected (connected System.boot 1 0) 2 0) 2 0).mgr.default_conn = none ∧
    (disconnected (connected (connected System.boot 1 0) 2 0) 2 0).mgr.current_conn = none ∧
    (disconnected (connected (connected System.boot 1 0) 2 0) 2 0).svc.current_conn = none ∧
    (disconnected (connected (connected System.boot 1 0) 2 0) 2 0).refs 1 = 1 ∧
    (disconnected (connected (connected System.boot 1 0) 2 0) 2 0).refs 2 = 0 := by
  decide

/-- C10: from a state whose three connection slots are empty, a successful
`connected(h)` followed by `disconnected(h)` leaves all three slots empty again and
every reference count, that of `h` included, at its value before the connect. -/
theorem connect_disconnect_balanced (s : System) (h : Conn) (reason : Nat)
    (_h1 : s.mgr.default_conn = none) (h2 : s.mgr.current_conn = none)
    (h3 : s.svc.current_conn = none) :
    (connected s h 0).mgr.default_conn = some h ∧
    (connected s h 0).refs h = s.refs h + 3 ∧
    (disconnected (connected s h 0) h reason).mgr.default_conn = none ∧
    (disconnected (connected s h 0) h reason).mgr.current_conn = none ∧
    (disconnected (connected s h 0) h reason).svc.current_conn = none ∧
    (disconnected (connected s h 0) h reason).refs h = s.refs h ∧
    ∀ k, (disconnected (connected s h 0) h reason).refs k = s.refs k := by
  have key : ∀ k, (disconnected (connected s h 0) h reason).refs k = s.refs k := by
    intro k
    simp only [disconnected, connected, ble_manager_set_connection, bme280_service_set_conn,
      bt_conn_ref, bt_conn_unref, h2, h3, ne_eq, not_true_eq_false, if_false]
    by_cases hk : k = h
    · simp only [hk, if_true]
      omega
    · simp only [hk, if_false]
  refine ⟨?_, ?_, ?_, ?_, ?_, key h, key⟩
  · simp [connected, ble_manager_set_connection, bme280_service_set_conn, bt_conn_ref, h2, h3]
  · simp [connected, ble_manager_set_connection, bme280_service_set_conn, bt_conn_ref, h2, h3]
    omega
  · simp [disconnected, connected, ble_manager_set_connection, bme280_service_set_conn,
      bt_conn_ref, bt_conn_unref, h2, h3]
  · simp [disconnected, connected, ble_manager_set_connection, bme280_service_set_conn,
      bt_conn_ref, bt_conn_unref, h2, h3]
  · simp [disconnected, connected, ble_manager_set_connection, bme280_service_set_conn,
      bt_conn_ref, bt_conn_unref, h2, h3]

/-- The balance theorem applied to the initial state and handle 5. -/
theorem connect_disconnect_balanced_witness :
    (System.boot.mgr.default_conn = none ∧ System.boot.mgr.current_conn = none ∧
      System.boot.svc.current_conn = none) ∧
    ((connected System.boot 5 0).mgr.default_conn = some 5 ∧
      (connected System.boot 5 0).refs 5 = System.boot.refs 5 + 3 ∧
      (disconnected (connected System.boot 5 0) 5 19).mgr.default_conn = none ∧
      (disconnected (connected System.boot 5 0) 5 19).mgr.current_conn = none ∧
      (disconnected (connected System.boot 5 0) 5 19).svc.current_conn = none ∧
      (disconnected (connected System.boot 5 0) 5 19).refs 5 = System.boot.refs 5 ∧
      ∀ k, (disconnected (connected System.boot 5 0) 5 19).refs k = System.boot.refs k) :=
  ⟨⟨rfl, rfl, rfl⟩, connect_disconnect_balanced System.boot 5 19 rfl rfl rfl⟩

/-! ## Theorems: the request schedule -/

theorem due_iff_elapsed (now last_send : Nat) :
    (now % ULONG_MOD + (ULONG_MOD - last_send % ULONG_MOD)) % ULONG_MOD ≥ SEND_INTERVAL_MS ↔
      elapsed_ms now last_send ≥ 30000 := by
  simp only [ULONG_MOD, SEND_INTERVAL_MS, elapsed_ms]
  omega

theorem written_of_due (st : UartManager) (now : Nat) (avail : List Nat)
    (h : (now % ULONG_MOD + (ULONG_MOD - st.last_send % ULONG_MOD)) % ULONG_MOD
      ≥ SEND_INTERVAL_MS) :
    (uart_manager_update st now avail).written = [CMD_SNAPSHOT, 0x0A] ∧
    (uart_manager_update st now avail).state.last_send = now % ULONG_MOD := by
  have hd := decide_eq_true h
  unfold uart_manager_update
  simp only [hd]
  exact ⟨rfl, rfl⟩

theorem written_of_not_due (st : UartManager) (now : Nat) (avail : List Nat)
    (h : ¬ (now % ULONG_MOD + (ULONG_MOD - st.last_send % ULONG_MOD)) % ULONG_MOD
      ≥ SEND_INTERVAL_MS) :
    (uart_manager_update st now avail).written = [] ∧
    (uart_manager_update st now avail).state.last_send = st.last_send := by
  have hd := decide_eq_false h
  unfold uart_manager_update
  simp only [hd]
  exact ⟨rfl, rfl⟩

/-- C11: for 32-bit millisecond counters `now` and `last_send`, one call of
`uart_manager_update` writes the request frame, exactly the two bytes 0x01 0x0A, if
and only if `now - last_send` taken modulo the counter width is at least 30000, and
then `last_send` becomes `now`; otherwise it writes nothing and `last_send` keeps its
value, whatever bytes are waiting on the serial port.  Across wrap-around: when `d`
milliseconds (fewer than the counter width) have passed since `last_send`, the frame
is written if and only if `d` is at least 30000. -/
theorem request_sent_iff_interval_elapsed (st : UartManager) (now : Nat) (avail : List Nat)
    (hnow : now < ULONG_MOD) (_hlast : st.last_send < ULONG_MOD) :
    ((uart_manager_update st now avail).written = request_frame ↔
      elapsed_ms now st.last_send ≥ 30000) ∧
    (elapsed_ms now st.last_send ≥ 30000 →
      (uart_manager_update st now avail).written = [0x01, 0x0A] ∧
      (uart_manager_update st now avail).state.last_send = now) ∧
    (¬ elapsed_ms now st.last_send ≥ 30000 →
      (uart_manager_update st now avail).written = [] ∧
      (uart_manager_update st now avail).state.last_send = st.last_send) ∧
    (∀ d : Nat, d < ULONG_MOD →
      ((uart_manager_update st ((st.last_send + d) % ULONG_MOD) avail).written = request_frame ↔
        30000 ≤ d)) := by
  have hmod : now % ULONG_MOD = now := Nat.mod_eq_of_lt hnow
  refine ⟨⟨fun hw => ?_, fun he => ?_⟩, fun he => ?_, fun he => ?_, fun d hd => ⟨fun hw => ?_, fun h30 => ?_⟩⟩
  · by_contra hne
    have hnd := mt (due_iff_elapsed now st.last_send).mp hne
    rw [(written_of_not_due st now avail hnd).1] at hw
    exact absurd hw (by decide)
  · exact (written_of_due st now avail ((due_iff_elapsed now st.last_send).mpr he)).1
  · have h := written_of_due st now avail ((due_iff_elapsed now st.last_send).mpr he)
    rw [hmod] at h
    exact h
  · exact written_of_not_due st now avail
      (mt (due_iff_elapsed now st.last_send).mp he)
  · by_contra hlt
    have hnd : ¬ ((st.last_send + d) % ULONG_MOD % ULONG_MOD
        + (ULONG_MOD - st.last_send % ULONG_MOD)) % ULONG_MOD ≥ SEND_INTERVAL_MS := by
      simp only [ULONG_MOD, SEND_INTERVAL_MS] at *
      omega
    rw [(written_of_not_due st _ avail hnd).1] at hw
    exact absurd hw (by decide)
  · have hdue : ((st.last_send + d) % ULONG_MOD % ULONG_MOD
        + (ULONG_MOD - st.last_send % ULONG_MOD)) % ULONG_MOD ≥ SEND_INTERVAL_MS := by
      simp only [ULONG_MOD, SEND_INTERVAL_MS] at *
      omega
    exact (written_of_due st _ avail hdue).1

/-- The schedule theorem applied across a wrap-around: `last_send` is 10000 ms before
the counter wraps and `now` is 20000 ms after it. -/
theorem request_sent_iff_interval_elapsed_witness :
    ((20000 : Nat) < ULONG_MOD ∧ (4294957296 : Nat) < ULONG_MOD) ∧
    (uart_manager_update { last_send := 4294957296, rx_buf := fun _ => 0 } 20000 []).written
      = [0x01, 0x0A] ∧
    (uart_manager_update { last_send := 4294957296, rx_buf := fun _ => 0 } 20000 []).state.last_send
      = 20000 :=
  ⟨⟨by decide, by decide⟩,
    (request_sent_iff_interval_elapsed { last_send := 4294957296, rx_buf := fun _ => 0 } 20000 []
      (by decide) (by decide)).2.1 (by decide)⟩

end SensMonitor
